import Mathlib

/-!
Verification of the GTM contact-intelligence pipeline:
signal scorer, wedge detector and playbook generator.

Scores are modelled as rationals, timestamps as integers (epoch
milliseconds), nullable database columns as `Option`, and fallible store
reads as `Except String`.  The JavaScript classes read the current time via
`Date.now()`; here the current time is an explicit `now : Int` parameter.
Thrown-and-caught exceptions are modelled by the explicit result values the
catch blocks produce.
-/

/-! ### Data model (mirrors the relational schema and the row objects) -/

/-- A row of `intelligence_signals` as seen by the processors.
`raw_data` is an opaque JSONB payload; only its `techStack` component is
ever read (by `buildCompetitiveContext`), so only that component is kept. -/
structure Signal where
  signal_type : String
  signal_category : String
  relevance_score : ℚ
  urgency_score : ℚ
  wedge_potential : ℚ
  description : String
  raw_data_techStack : Option (List String)
  deriving DecidableEq

/-- The transient scored view of a signal produced by the scorer
(the spread copy with `relevance_score` possibly overwritten and
`linkedin_boosted` / `composite_score` added). -/
structure ScoredSignal where
  signal_type : String
  signal_category : String
  relevance_score : ℚ
  urgency_score : ℚ
  wedge_potential : ℚ
  description : String
  raw_data_techStack : Option (List String)
  linkedin_boosted : Bool
  composite_score : ℚ
  deriving DecidableEq

/-- A row of `linkedin_posts` as used by the wedge detector.
`topics_detected` and `key_themes` are TEXT[] columns (a NULL array is
read as the empty list); `post_date` is an epoch-millisecond timestamp. -/
structure Post where
  post_url : String
  post_date : Int
  post_content : String
  engagement_count : Nat
  mentions_pain_points : Bool
  mentions_buying_signals : Bool
  key_themes : List String
  topics_detected : List String
  deriving DecidableEq

/-- One entry of the `primary_languages` JSONB array of a GitHub row. -/
structure GHLanguage where
  language : String
  deriving DecidableEq

/-- A row of the GitHub activity table. -/
structure GithubActivity where
  activity_score : Option ℚ
  primary_languages : List GHLanguage
  github_username : Option String
  deriving DecidableEq

/-- The LinkedIn profile fields read by the pipeline. -/
structure LinkedInProfile where
  current_position_tenure_months : Option Int
  current_company : Option String
  previous_companies : List String
  location : Option String
  deriving DecidableEq

/-- The contact fields read by the playbook generator. -/
structure Contact where
  full_name : String
  current_company : Option String
  current_title : Option String
  deriving DecidableEq

/-- A speaking engagement row. -/
structure SpeakingEngagement where
  topics : List String
  platform : String
  deriving DecidableEq

/-! ### JavaScript-semantics helpers -/

/-- JavaScript `x[0] || fallback` on an array of strings: the first element
if it exists and is truthy (non-empty), otherwise the fallback. -/
def jsOrStr (x : Option String) (fallback : String) : String :=
  match x with
  | none => fallback
  | some s => if s.isEmpty then fallback else s

/-- Interpolating `xs[0]` into a template when the array may be empty:
JavaScript renders the missing element as the text `undefined`. -/
def jsIdx0 (xs : List String) : String :=
  xs.headD "undefined"

/-- JavaScript `Math.round` on a (finite) number: round half toward +∞. -/
def jsRound (q : ℚ) : Int :=
  (q + 1/2).floor

/-- JavaScript `x > y` where `x` is a nullable numeric column:
`null > y` is `false`. -/
def gtJS (x : Option ℚ) (y : ℚ) : Bool :=
  match x with
  | none => false
  | some x => decide (y < x)

/-- `Math.floor((now - new Date(date).getTime()) / (1000*60*60*24))`. -/
def getDaysSince (now date : Int) : Int :=
  (now - date).fdiv 86400000

/-! ### Signal scorer (`signal-scorer.js`) -/

/-- Configured LinkedIn relevance boost (`config.intelligence.linkedinRelevanceBoost`,
default 0.3). -/
def linkedinRelevanceBoost : ℚ := 0.3

/-- Configured minimum relevance (`config.intelligence.minSignalRelevanceScore`,
default 0.5). -/
def minSignalRelevanceScore : ℚ := 0.5

/-- `isLinkedInSignal`: membership of the signal type in the LinkedIn set. -/
def isLinkedInSignal (signalType : String) : Bool :=
  (["linkedin_activity", "linkedin_content", "linkedin_profile_change"]).contains signalType

/-- `calculateCompositeScore`: relevance 40%, urgency 30%, wedge potential 30%. -/
def calculateCompositeScore (relevance urgency wedgePotential : ℚ) : ℚ :=
  relevance * 0.4 + urgency * 0.3 + wedgePotential * 0.3

/-- The per-signal body of the scorer's `map`: copy the signal, boost the
relevance of LinkedIn-typed signals (clamped at 1.0), and attach the
composite score. -/
def boostSignal (signal : Signal) : ScoredSignal :=
  let boostedRelevance :=
    if isLinkedInSignal signal.signal_type then
      min (signal.relevance_score + linkedinRelevanceBoost) 1
    else signal.relevance_score
  { signal_type := signal.signal_type
    signal_category := signal.signal_category
    relevance_score := boostedRelevance
    urgency_score := signal.urgency_score
    wedge_potential := signal.wedge_potential
    description := signal.description
    raw_data_techStack := signal.raw_data_techStack
    linkedin_boosted := isLinkedInSignal signal.signal_type
    composite_score :=
      calculateCompositeScore boostedRelevance signal.urgency_score signal.wedge_potential }

/-- Descending order on composite score (the JS comparator
`(a, b) => b.composite_score - a.composite_score`). -/
def compositeGE (a b : ScoredSignal) : Prop :=
  b.composite_score ≤ a.composite_score

instance : DecidableRel compositeGE :=
  fun a b => inferInstanceAs (Decidable (b.composite_score ≤ a.composite_score))

instance : IsTotal ScoredSignal compositeGE :=
  ⟨fun a b => le_total b.composite_score a.composite_score⟩

instance : IsTrans ScoredSignal compositeGE :=
  ⟨fun _ _ _ hab hbc => le_trans hbc hab⟩

/-- `scoreAndPrioritizeSignals`: fetch the signals (the argument stands for
the awaited store read; the catch block turns a store failure into `[]`),
boost, filter by minimum relevance, sort descending by composite score. -/
def scoreAndPrioritizeSignals (signals : Except String (List Signal)) : List ScoredSignal :=
  match signals with
  | .error _ => []
  | .ok signals =>
    if signals.length = 0 then []
    else
      let boostedSignals := signals.map boostSignal
      let filteredSignals :=
        boostedSignals.filter (fun s => decide (minSignalRelevanceScore ≤ s.relevance_score))
      List.insertionSort compositeGE filteredSignals

/-- `getTopSignals`: the prioritized list truncated to the first `count`. -/
def getTopSignals (signals : Except String (List Signal)) (count : Nat) : List ScoredSignal :=
  (scoreAndPrioritizeSignals signals).take count

/-! ### Theorems: signal scorer -/

/-- C1: for every stored signal, the scored entry the scorer computes for it
has relevance `min(relevance + 0.3, 1)` exactly when the signal type is one
of the three LinkedIn-origin types and the original relevance otherwise, and
composite score `0.4 * boostedRelevance + 0.3 * urgency + 0.3 * wedgePotential`;
moreover every entry of the scorer's output is such a scored entry of some
stored signal. -/
theorem c1_scorer_boost_and_composite (signals : List Signal) :
    (∀ signal ∈ signals,
      (boostSignal signal).relevance_score =
        (if isLinkedInSignal signal.signal_type
          then min (signal.relevance_score + 0.3) 1
          else signal.relevance_score) ∧
      (boostSignal signal).composite_score =
        0.4 * (boostSignal signal).relevance_score
          + 0.3 * signal.urgency_score + 0.3 * signal.wedge_potential) ∧
    (∀ e ∈ scoreAndPrioritizeSignals (.ok signals), ∃ signal ∈ signals, e = boostSignal signal) := by
  constructor
  · intro signal _
    have hrel : (boostSignal signal).relevance_score =
        (if isLinkedInSignal signal.signal_type
          then min (signal.relevance_score + linkedinRelevanceBoost) 1
          else signal.relevance_score) := rfl
    refine ⟨hrel, ?_⟩
    rw [hrel]
    show calculateCompositeScore _ _ _ = _
    unfold calculateCompositeScore
    ring
  · intro e he
    unfold scoreAndPrioritizeSignals at he
    by_cases hlen : signals.length = 0
    · simp [hlen] at he
    · simp only [hlen, if_false] at he
      have hmem := ((List.perm_insertionSort compositeGE _).mem_iff).mp he
      have hmem' := List.mem_of_mem_filter hmem
      obtain ⟨signal, hs, rfl⟩ := List.mem_map.mp hmem'
      exact ⟨signal, hs, rfl⟩

/-- A concrete LinkedIn-typed signal used to instantiate the scorer theorems. -/
def signalW : Signal :=
  ⟨"linkedin_activity", "buying_signal", 0.9, 0.5, 0.6, "s", none⟩

/-- C1 witness: a LinkedIn-typed signal with relevance 0.9 is boosted to 1
and gets composite score 0.73 at urgency 0.5 and wedge potential 0.6. -/
theorem c1_scorer_boost_and_composite_witness :
    (boostSignal signalW).relevance_score = 1 ∧
    (boostSignal signalW).composite_score = 0.73 := by
  have h := (c1_scorer_boost_and_composite [signalW]).1 signalW (List.mem_singleton.mpr rfl)
  have hact : isLinkedInSignal signalW.signal_type = true := rfl
  have h1 : (boostSignal signalW).relevance_score = 1 := by
    rw [h.1, hact, if_pos rfl]
    show min ((0.9 : ℚ) + 0.3) 1 = 1
    rw [min_eq_right (by norm_num)]
  refine ⟨h1, ?_⟩
  rw [h.2, h1]
  show (0.4 : ℚ) * 1 + 0.3 * 0.5 + 0.3 * 0.6 = 0.73
  norm_num

/-- C8: the scorer's output contains exactly the boosted signals whose
(possibly boosted) relevance is at least the 0.5 threshold (boundary
inclusive), it is sorted in descending order of composite score, and
`getTopSignals` is the same list truncated to its first `n` elements. -/
theorem c8_filter_sort_top (signals : List Signal) (n : Nat) :
    (∀ e, e ∈ scoreAndPrioritizeSignals (.ok signals) ↔
      e ∈ (signals.map boostSignal).filter (fun s => decide ((0.5 : ℚ) ≤ s.relevance_score))) ∧
    List.Sorted compositeGE (scoreAndPrioritizeSignals (.ok signals)) ∧
    getTopSignals (.ok signals) n = (scoreAndPrioritizeSignals (.ok signals)).take n := by
  refine ⟨?_, ?_, rfl⟩
  · intro e
    unfold scoreAndPrioritizeSignals
    by_cases hlen : signals.length = 0
    · rw [List.length_eq_zero] at hlen
      subst hlen
      simp
    · simp only [hlen, if_false]
      exact (List.perm_insertionSort compositeGE _).mem_iff
  · unfold scoreAndPrioritizeSignals
    by_cases hlen : signals.length = 0
    · simp [hlen]
    · simp only [hlen, if_false]
      exact List.sorted_insertionSort compositeGE _

/-! ### Wedge data model -/

/-- The structured `details` evidence object, one shape per detection rule. -/
inductive WedgeDetails
  | painPoint (postUrl : String) (postDate : Int) (daysSince : Int)
      (themes : List String) (engagement : Nat) (contentPreview : String)
  | buyingSignal (postUrl : String) (postDate : Int) (daysSince : Int)
      (contentPreview : String)
  | jobChange (tenureMonths : Int) (phase : String)
  | thoughtLeadership (postUrl : String) (engagement : Nat) (avgEngagement : Int)
      (topics : List String) (daysSince : Int)
  | activePoster (postCount : Nat) (topTopics : List String)
  | technical (githubActivity : Option ℚ) (githubLanguages : List GHLanguage)
      (linkedinTechnicalPosts : Nat)
  | initiative (signal : String) (rawDataTechStack : Option (List String))
  deriving DecidableEq

/-- A candidate conversation-opener emitted by a detection rule. -/
structure Wedge where
  type : String
  score : ℚ
  description : String
  details : WedgeDetails
  openingHook : String
  timingRationale : String
  conversationStarters : List String
  deriving DecidableEq

/-! ### Wedge detector (`wedge-detector.js`) -/

/-- `generatePainPointHook`. -/
def generatePainPointHook (post : Post) : String :=
  let theme := jsOrStr post.key_themes.head? "this challenge"
  "Saw your recent post about " ++ theme ++ " - the " ++ toString post.engagement_count
    ++ " responses show it\x27s a common frustration. We\x27ve helped similar companies tackle this."

/-- The wedge pushed for one pain-point post (the `forEach` body of
`detectPainPointWedges`). -/
def mkPainPointWedge (now : Int) (post : Post) : Wedge :=
  let daysSincePost := getDaysSince now post.post_date
  let recencyBoost : ℚ := if daysSincePost < 7 then 0.15 else if daysSincePost < 14 then 0.10 else 0.05
  { type := "linkedin_pain_point"
    score := 0.95 + recencyBoost
    description := "Recent LinkedIn post discussing pain points"
    details := .painPoint post.post_url post.post_date daysSincePost post.key_themes
      post.engagement_count (post.post_content.take 200)
    openingHook := generatePainPointHook post
    timingRationale := "Posted " ++ toString daysSincePost ++ " days ago with "
      ++ toString post.engagement_count
      ++ " engagements - indicates active, shared pain point"
    conversationStarters :=
      ["Saw your recent post about " ++ jsOrStr post.key_themes.head? "challenges",
       "The " ++ toString post.engagement_count
         ++ " responses to your post show this is a common issue",
       "Your point about " ++ jsOrStr post.key_themes.head? "the problem" ++ " really resonated"] }

/-- `detectPainPointWedges`: one wedge per post flagged `mentions_pain_points`. -/
def detectPainPointWedges (now : Int) (posts : List Post) : List Wedge :=
  (posts.filter (fun p => p.mentions_pain_points)).map (mkPainPointWedge now)

/-- `b.isPrefixOf a`-style check written out: does `pat` start `hay`? -/
def beginsWith : List Char → List Char → Bool
  | [], _ => true
  | _ :: _, [] => false
  | a :: as, b :: bs => a == b && beginsWith as bs

/-- JavaScript `hay.includes(pat)` on strings, as character lists. -/
def strIncludes (hay pat : List Char) : Bool :=
  match hay with
  | [] => pat.isEmpty
  | _ :: t => beginsWith pat hay || strIncludes t pat

/-- JavaScript `toLowerCase` (Basic Latin), as a character list. -/
def jsToLower (s : String) : List Char :=
  s.data.map Char.toLower

/-- `extractBuyingIntent`: first matching keyword of the lower-cased content. -/
def extractBuyingIntent (content : String) : String :=
  let lowerContent := jsToLower content
  if strIncludes lowerContent ("recommend").data then "recommendations"
  else if strIncludes lowerContent ("evaluat").data then "solutions to evaluate"
  else if strIncludes lowerContent ("looking for").data then "a solution"
  else if strIncludes lowerContent ("anyone use").data then "tool recommendations"
  else "solutions"

/-- The wedge pushed for one buying-signal post (the `forEach` body of
`detectBuyingSignalWedges`). -/
def mkBuyingSignalWedge (now : Int) (post : Post) : Wedge :=
  let daysSince := getDaysSince now post.post_date
  { type := "linkedin_buying_signal"
    score := 0.98
    description := "Active buying signal detected in LinkedIn post"
    details := .buyingSignal post.post_url post.post_date daysSince (post.post_content.take 200)
    openingHook := "Saw you\x27re looking for " ++ extractBuyingIntent post.post_content
      ++ " - happy to share what\x27s worked for similar companies"
    timingRationale := "Active evaluation happening now - posted " ++ toString daysSince
      ++ " days ago"
    conversationStarters :=
      ["Saw your question about solutions for " ++ jsIdx0 post.key_themes,
       "Happy to share how similar companies approached this",
       "Would love to share what we\x27ve learned from others in your situation"] }

/-- `detectBuyingSignalWedges`: one wedge per post flagged `mentions_buying_signals`. -/
def detectBuyingSignalWedges (now : Int) (posts : List Post) : List Wedge :=
  (posts.filter (fun p => p.mentions_buying_signals)).map (mkBuyingSignalWedge now)

/-- The "recent job change" wedge (tenure below 6 months). -/
def mkJobChangeRecentWedge (profile : LinkedInProfile) (tenureMonths : Int) : Wedge :=
  { type := "linkedin_job_change_recent"
    score := 0.90
    description := "Recently joined company " ++ toString tenureMonths ++ " months ago"
    details := .jobChange tenureMonths "evaluation"
    openingHook := "Congrats on the new role! Curious how you\x27re approaching"
      ++ " [relevant challenge] as you get settled"
    timingRationale := toString tenureMonths
      ++ " months in - still in evaluation phase, likely reviewing tech stack"
    conversationStarters :=
      ["Congrats on joining " ++ jsOrStr profile.current_company "your company",
       "Curious what you\x27re prioritizing in your first few months",
       "How are you thinking about [relevant area] in your new role"] }

/-- The "optimal window" wedge (tenure 6 to 12 months). -/
def mkJobChangeOptimalWedge (tenureMonths : Int) : Wedge :=
  { type := "linkedin_job_change_optimal"
    score := 0.85
    description := toString tenureMonths ++ " months into current role - past honeymoon phase"
    details := .jobChange tenureMonths "optimization"
    openingHook := toString tenureMonths
      ++ " months in - curious what challenges you\x27re focusing on now"
    timingRationale :=
      "Past honeymoon phase but not entrenched - optimal time to evaluate new solutions"
    conversationStarters :=
      ["What\x27s top of mind for you these days",
       "What challenges are you tackling now that you\x27re " ++ toString tenureMonths
         ++ " months in",
       "How\x27s your approach to [relevant area] evolved since joining"] }

/-- `detectJobChangeWedges`: the guard
`!profile || !profile.current_position_tenure_months` short-circuits when the
profile is absent, the tenure column is NULL, or the tenure is the (falsy)
number 0; then at most one wedge by tenure band. -/
def detectJobChangeWedges (profile : Option LinkedInProfile) (signals : List Signal) :
    List Wedge :=
  match profile with
  | none => []
  | some profile =>
    match profile.current_position_tenure_months with
    | none => []
    | some tenureMonths =>
      if tenureMonths = 0 then []
      else if tenureMonths < 6 then [mkJobChangeRecentWedge profile tenureMonths]
      else if 6 ≤ tenureMonths ∧ tenureMonths ≤ 12 then [mkJobChangeOptimalWedge tenureMonths]
      else []

/-- Average engagement across the fetched posts (the `reduce` over
`p.engagement_count || 0` divided by `posts.length`). -/
def avgEngagementQ (posts : List Post) : ℚ :=
  ((posts.foldl (fun sum p => sum + p.engagement_count) 0 : Nat) : ℚ) / (posts.length : ℚ)

/-- The filter of `detectThoughtLeadershipWedges` picking posts whose
engagement exceeds twice the average. -/
def tlHighFilter (posts : List Post) (p : Post) : Bool :=
  decide (avgEngagementQ posts * 2 < (p.engagement_count : ℚ))

/-- Increment the count of a topic in an insertion-ordered association list
(JavaScript object keyed by topic). -/
def bumpTopic : List (String × Nat) → String → List (String × Nat)
  | [], t => [(t, 1)]
  | (s, n) :: rest, t => if s = t then (s, n + 1) :: rest else (s, n) :: bumpTopic rest t

/-- Descending order on topic counts (the comparator `(a, b) => b[1] - a[1]`). -/
def countGE (a b : String × Nat) : Prop :=
  b.2 ≤ a.2

instance : DecidableRel countGE :=
  fun a b => inferInstanceAs (Decidable (b.2 ≤ a.2))

instance : IsTotal (String × Nat) countGE :=
  ⟨fun a b => Nat.le_total b.2 a.2⟩

instance : IsTrans (String × Nat) countGE :=
  ⟨fun _ _ _ hab hbc => Nat.le_trans hbc hab⟩

/-- `extractTopTopics`: count topics across posts, sort descending by count,
take the first three topic names. -/
def extractTopTopics (posts : List Post) : List String :=
  let topicCounts := posts.foldl (fun acc p => p.topics_detected.foldl bumpTopic acc) []
  (((List.insertionSort countGE topicCounts).map Prod.fst).take 3)

/-- The "high-engagement post" wedge built from the first qualifying post. -/
def mkThoughtLeadershipWedge (now : Int) (avgEngagement : ℚ) (topPost : Post) : Wedge :=
  let daysSince := getDaysSince now topPost.post_date
  { type := "linkedin_thought_leadership"
    score := 0.85
    description := "High-engagement LinkedIn post on relevant topic"
    details := .thoughtLeadership topPost.post_url topPost.engagement_count
      (jsRound avgEngagement) topPost.topics_detected daysSince
    openingHook := "Loved your recent post on "
      ++ jsOrStr topPost.key_themes.head? (jsIdx0 topPost.topics_detected)
      ++ " - especially your point about [specific insight]"
    timingRationale := "High engagement (" ++ toString topPost.engagement_count ++ " vs "
      ++ toString (jsRound avgEngagement)
      ++ " average) shows this topic resonates with their audience"
    conversationStarters :=
      ["Your post about " ++ jsOrStr topPost.key_themes.head? "this topic" ++ " really resonated",
       "The engagement on your recent post was impressive",
       "Would love to hear more about your thoughts on " ++ jsIdx0 topPost.topics_detected] }

/-- The "active poster" wedge (ten or more posts in the window). -/
def mkActivePosterWedge (posts : List Post) : Wedge :=
  let topTopics := extractTopTopics posts
  { type := "linkedin_active_poster"
    score := 0.75
    description := "Active LinkedIn poster (" ++ toString posts.length ++ " posts recently)"
    details := .activePoster posts.length topTopics
    openingHook := "Appreciate your LinkedIn content on " ++ jsIdx0 topTopics
      ++ " - clear you\x27re thinking deeply about this"
    timingRationale := "Active on LinkedIn - responsive to DMs and engaged with their network"
    conversationStarters :=
      ["Love following your LinkedIn content",
       "Your posts on " ++ jsIdx0 topTopics ++ " are always insightful",
       "Clearly you\x27re passionate about " ++ jsIdx0 topTopics] }

/-- `detectThoughtLeadershipWedges`: at most one high-engagement wedge (for
the first post whose engagement exceeds twice the average) and at most one
active-poster wedge. -/
def detectThoughtLeadershipWedges (now : Int) (posts : List Post) : List Wedge :=
  if posts.length = 0 then []
  else
    let highWedges :=
      match posts.filter (tlHighFilter posts) with
      | [] => []
      | topPost :: _ => [mkThoughtLeadershipWedge now (avgEngagementQ posts) topPost]
    let activeWedges := if posts.length ≥ 10 then [mkActivePosterWedge posts] else []
    highWedges ++ activeWedges

/-- The technical-topic filter of `detectTechnicalWedges`. -/
def technicalTopicFilter (p : Post) : Bool :=
  p.topics_detected.any (fun t =>
    (["API", "integration", "technical", "developer", "automation"]).contains t)

/-- The language name of the first `primary_languages` entry, if any. -/
def topLanguage (githubActivity : GithubActivity) : Option String :=
  githubActivity.primary_languages.head?.map GHLanguage.language

/-- The technical-buyer wedge. -/
def mkTechnicalWedge (githubActivity : GithubActivity) (technicalPostCount : Nat) : Wedge :=
  { type := "technical_buyer"
    score := 0.80
    description := "Technical buyer with LinkedIn + GitHub activity"
    details := .technical githubActivity.activity_score githubActivity.primary_languages
      technicalPostCount
    openingHook := "Noticed your work in "
      ++ jsOrStr (topLanguage githubActivity) "software development"
      ++ " - curious how you evaluate technical solutions"
    timingRationale := "Hands-on technical evaluator - values API docs, technical architecture"
    conversationStarters :=
      ["Saw your GitHub work in " ++ (topLanguage githubActivity).getD "undefined",
       "How do you typically evaluate technical solutions",
       "What matters most to you in terms of technical architecture"] }

/-- `detectTechnicalWedges`: one wedge when some post discusses a technical
topic and the GitHub activity score exceeds 0.6. -/
def detectTechnicalWedges (posts : List Post) (githubActivity : Option GithubActivity) :
    List Wedge :=
  match githubActivity with
  | none => []
  | some githubActivity =>
    let technicalPosts := posts.filter technicalTopicFilter
    if technicalPosts.length > 0 ∧ gtJS githubActivity.activity_score 0.6 then
      [mkTechnicalWedge githubActivity technicalPosts.length]
    else []

/-- The filter of `detectInitiativeWedges` picking company hiring/initiative
timing-trigger signals. -/
def initiativeFilter (s : Signal) : Bool :=
  s.signal_category == "timing_trigger"
    && (s.signal_type == "company_hiring" || s.signal_type == "company_initiatives")

/-- The company-initiative wedge built from the first matching signal. -/
def mkInitiativeWedge (signal : Signal) : Wedge :=
  { type := "company_initiative"
    score := 0.70
    description := "Company hiring/initiative signals detected"
    details := .initiative signal.description signal.raw_data_techStack
    openingHook := "Noticed your company is [hiring/expanding] in [area]"
      ++ " - curious how that ties into your priorities"
    timingRationale := "Company expansion creates budget and urgency for new tools"
    conversationStarters :=
      ["Saw your company is expanding in [area]",
       "How does [initiative] tie into your priorities",
       "What\x27s driving the [hiring/expansion]"] }

/-- `detectInitiativeWedges`: one wedge from the first matching signal. -/
def detectInitiativeWedges (signals : List Signal) : List Wedge :=
  match signals.filter initiativeFilter with
  | [] => []
  | signal :: _ => [mkInitiativeWedge signal]

/-! ### The store and the detector coordinator -/

/-- One contact's view of the relational store: each component is the result
of the corresponding awaited query (`Except.error` models a rejected read),
plus the outcome of the final playbook insert. -/
structure Store where
  contact : Except String (Option Contact)
  profile : Except String (Option LinkedInProfile)
  posts : Except String (List Post)
  github : Except String (Option GithubActivity)
  speaking : Except String (List SpeakingEngagement)
  signals : Except String (List Signal)
  save : Except String Unit

/-- The object returned by `detectWedges`. -/
structure WedgeResult where
  wedges : List Wedge
  primaryWedge : Option Wedge
  wedgeCount : Nat
  deriving DecidableEq

/-- Descending order on wedge score (the comparator `(a, b) => b.score - a.score`). -/
def wedgeGE (a b : Wedge) : Prop :=
  b.score ≤ a.score

instance : DecidableRel wedgeGE :=
  fun a b => inferInstanceAs (Decidable (b.score ≤ a.score))

instance : IsTotal Wedge wedgeGE :=
  ⟨fun a b => le_total b.score a.score⟩

instance : IsTrans Wedge wedgeGE :=
  ⟨fun _ _ _ hab hbc => le_trans hbc hab⟩

/-- `detectWedges`: run the six rules over the concurrently fetched profile,
posts, signals and GitHub activity, concatenate, sort descending by score;
the first element (if any) is the primary wedge.  If any of the four reads
fails, the catch block returns the empty result. -/
def detectWedges (now : Int) (st : Store) : WedgeResult :=
  match st.profile, st.posts, st.signals, st.github with
  | .ok linkedinProfile, .ok linkedinPosts, .ok signals, .ok githubActivity =>
    let wedges :=
      detectPainPointWedges now linkedinPosts
        ++ detectBuyingSignalWedges now linkedinPosts
        ++ detectJobChangeWedges linkedinProfile signals
        ++ detectThoughtLeadershipWedges now linkedinPosts
        ++ detectTechnicalWedges linkedinPosts githubActivity
        ++ detectInitiativeWedges signals
    let sortedWedges := List.insertionSort wedgeGE wedges
    { wedges := sortedWedges
      primaryWedge := sortedWedges.head?
      wedgeCount := sortedWedges.length }
  | _, _, _, _ => { wedges := [], primaryWedge := none, wedgeCount := 0 }

/-! ### Playbook generator (`playbook-generator.js`) -/

/-- The channel-confidence mapping. -/
structure Channels where
  linkedin_dm : ℚ
  email : ℚ
  phone : ℚ
  deriving DecidableEq

/-- `recommendChannels`: baseline values, then the sequential overwrites --
LinkedIn-DM boost for five or more posts, the unconditional email baseline
boost, and the technical-buyer adjustment. -/
def recommendChannels (linkedinProfile : Option LinkedInProfile) (linkedinPosts : List Post)
    (githubActivity : Option GithubActivity) : Channels :=
  let channels : Channels := { linkedin_dm := 0.5, email := 0.7, phone := 0.3 }
  let channels :=
    if linkedinPosts.length ≥ 5 then { channels with linkedin_dm := 0.95, email := 0.6 }
    else channels
  let channels := { channels with email := 0.8 }
  let channels :=
    match githubActivity with
    | some githubActivity =>
      if gtJS githubActivity.activity_score 0.6 then { channels with phone := 0.2, email := 0.9 }
      else channels
    | none => channels
  channels

/-- `formatSignalAsEvidence`. -/
def formatSignalAsEvidence (signal : ScoredSignal) : String :=
  signal.description ++ " (relevance: " ++ toString (jsRound (signal.relevance_score * 100))
    ++ "%)"

/-- `buildSupportingEvidence`: the top five signals rendered, then the
wedges ranked second to fourth. -/
def buildSupportingEvidence (signals : List ScoredSignal) (wedges : WedgeResult) :
    List String :=
  (signals.take 5).map formatSignalAsEvidence
    ++ ((wedges.wedges.drop 1).take 3).map (fun w => w.description ++ " (" ++ w.type ++ ")")

/-- `buildPersonalizationHooks`: up to one hook per available source, in a
fixed order; JavaScript truthiness skips empty strings. -/
def buildPersonalizationHooks (contact : Contact) (linkedinProfile : Option LinkedInProfile)
    (githubActivity : Option GithubActivity) (speakingEngagements : List SpeakingEngagement) :
    List String :=
  (match linkedinProfile with
   | some profile =>
     (match profile.previous_companies with
      | [] => []
      | company :: _ => ["Previously worked at " ++ company ++ " - interesting transition"])
       ++ (match profile.location with
           | some location => if location.isEmpty then [] else ["Based in " ++ location]
           | none => [])
   | none => [])
  ++ (match githubActivity with
      | some githubActivity =>
        (match githubActivity.github_username with
         | some username =>
           if username.isEmpty then []
           else
             match topLanguage githubActivity with
             | some topLang =>
               if topLang.isEmpty then []
               else ["Technical background in " ++ topLang ++ " development"]
             | none => []
         | none => [])
      | none => [])
  ++ (match speakingEngagements with
      | [] => []
      | latestTalk :: _ =>
        ["Recently spoke about " ++ jsOrStr latestTalk.topics.head? "industry topics"
          ++ " at " ++ latestTalk.platform])
  ++ (match contact.current_company with
      | some company =>
        if company.isEmpty then []
        else ["Currently at " ++ company ++ " as " ++ jsOrStr contact.current_title "team member"]
      | none => [])

/-- `buildTimingRationale`: the primary wedge's rationale, a tenure-derived
sentence (the falsy guard again treats tenure 0 as absent), and a count of
high-urgency signals, period-joined. -/
def buildTimingRationale (primaryWedge : Wedge) (linkedinProfile : Option LinkedInProfile)
    (signals : List ScoredSignal) : String :=
  let tenurePart : List String :=
    match linkedinProfile with
    | some profile =>
      match profile.current_position_tenure_months with
      | some tenure =>
        if tenure = 0 then []
        else if tenure < 6 then
          ["In first 6 months of new role - actively evaluating tools and processes"]
        else if 6 ≤ tenure ∧ tenure ≤ 12 then
          ["Past honeymoon phase - has context to identify gaps and push for changes"]
        else []
      | none => []
    | none => []
  let urgentSignals := signals.filter (fun s => decide ((0.8 : ℚ) < s.urgency_score))
  let urgentPart : List String :=
    if urgentSignals.length > 0 then
      [toString urgentSignals.length ++ " high-urgency signals detected - time-sensitive opportunity"]
    else []
  ". ".intercalate ([primaryWedge.timingRationale] ++ tenurePart ++ urgentPart)

/-- `buildCompetitiveContext`: tech-stack signals rendered, or the fixed
no-information string. -/
def buildCompetitiveContext (signals : List ScoredSignal) : String :=
  match signals.filter (fun s => s.signal_type == "company_tech_stack") with
  | [] => "No current tech stack information available"
  | signal :: _ =>
    "Current stack includes: " ++ ", ".intercalate (signal.raw_data_techStack.getD [])
      ++ ". Potential displacement opportunities."

/-- The synthesized playbook.  The purely presentational fields
(`linkedin_context`, `sample_outreach`, `full_strategy_json`) are rendered
report text outside every verified property and are not modelled. -/
structure Playbook where
  primary_wedge : String
  wedge_score : ℚ
  supporting_evidence : List String
  personalization_hooks : List String
  timing_rationale : String
  recommended_channels : Channels
  competitive_context : String
  conversation_starters : List String
  deriving DecidableEq

/-- The `{success, playbook?, error?}` object returned by `generatePlaybook`. -/
structure GenerateResult where
  success : Bool
  playbook : Option Playbook
  error : Option String
  deriving DecidableEq

/-- `generatePlaybook`: await the seven reads (the five direct entity
fetches may reject and are then caught as a failure result; the scorer and
the detector catch their own read failures internally), fail on a missing
contact or a missing primary wedge, otherwise assemble the playbook and
persist it.  The second component records whether a playbook row was
inserted. -/
def generatePlaybook (now : Int) (st : Store) : GenerateResult × Bool :=
  match st.contact, st.profile, st.posts, st.github, st.speaking with
  | .ok contact, .ok linkedinProfile, .ok linkedinPosts, .ok githubActivity, .ok speakingEngagements =>
    let topSignals := getTopSignals st.signals 5
    let wedges := detectWedges now st
    match contact with
    | none => ({ success := false, playbook := none, error := some ("Contact not found") }, false)
    | some contact =>
      match wedges.primaryWedge with
      | none =>
        ({ success := false, playbook := none
           error := some ("Insufficient intelligence to generate playbook") }, false)
      | some primaryWedge =>
        let playbook : Playbook :=
          { primary_wedge := primaryWedge.description
            wedge_score := primaryWedge.score
            supporting_evidence := buildSupportingEvidence topSignals wedges
            personalization_hooks :=
              buildPersonalizationHooks contact linkedinProfile githubActivity speakingEngagements
            timing_rationale := buildTimingRationale primaryWedge linkedinProfile topSignals
            recommended_channels := recommendChannels linkedinProfile linkedinPosts githubActivity
            competitive_context := buildCompetitiveContext topSignals
            conversation_starters := primaryWedge.conversationStarters }
        match st.save with
        | .ok _ => ({ success := true, playbook := some playbook, error := none }, true)
        | .error e => ({ success := false, playbook := none, error := some e }, false)
  | .error e, _, _, _, _ => ({ success := false, playbook := none, error := some e }, false)
  | _, .error e, _, _, _ => ({ success := false, playbook := none, error := some e }, false)
  | _, _, .error e, _, _ => ({ success := false, playbook := none, error := some e }, false)
  | _, _, _, .error e, _ => ({ success := false, playbook := none, error := some e }, false)
  | _, _, _, _, .error e => ({ success := false, playbook := none, error := some e }, false)

/-! ### Theorems: wedge detection rules -/

/-- C2: the pain-point rule emits exactly one wedge per post flagged
`mentions_pain_points`; that wedge's score is 1.10 for a post less than 7
days old, 1.05 for one less than 14 days old and 1.00 otherwise, and its
timing rationale states the days-since-post and the engagement count. -/
theorem c2_pain_point_wedges (now : Int) (posts : List Post) :
    detectPainPointWedges now posts =
      (posts.filter (fun p => p.mentions_pain_points)).map (mkPainPointWedge now) ∧
    ∀ p : Post,
      (mkPainPointWedge now p).score =
        (if getDaysSince now p.post_date < 7 then (1.10 : ℚ)
         else if getDaysSince now p.post_date < 14 then 1.05 else 1.00) ∧
      (mkPainPointWedge now p).timingRationale =
        "Posted " ++ toString (getDaysSince now p.post_date) ++ " days ago with "
          ++ toString p.engagement_count
          ++ " engagements - indicates active, shared pain point" := by
  refine ⟨rfl, fun p => ⟨?_, rfl⟩⟩
  show (0.95 : ℚ) +
      (if getDaysSince now p.post_date < 7 then (0.15 : ℚ)
       else if getDaysSince now p.post_date < 14 then 0.10 else 0.05) = _
  split_ifs <;> norm_num

/-- C9: the buying-signal rule emits exactly one wedge per post flagged
`mentions_buying_signals`, with score exactly 0.98 and an opening hook built
around the buying-intent phrase; the phrase is chosen by the first matching
keyword of the lower-cased content in the order recommend, evaluat,
looking for, anyone use, defaulting to "solutions". -/
theorem c9_buying_signal_wedges (now : Int) (posts : List Post) :
    detectBuyingSignalWedges now posts =
      (posts.filter (fun p => p.mentions_buying_signals)).map (mkBuyingSignalWedge now) ∧
    (∀ p : Post,
      (mkBuyingSignalWedge now p).score = 0.98 ∧
      (mkBuyingSignalWedge now p).openingHook =
        "Saw you\x27re looking for " ++ extractBuyingIntent p.post_content
          ++ " - happy to share what\x27s worked for similar companies") ∧
    (∀ content : String,
      (strIncludes (jsToLower content) ("recommend").data = true →
        extractBuyingIntent content = "recommendations") ∧
      (strIncludes (jsToLower content) ("recommend").data = false →
        strIncludes (jsToLower content) ("evaluat").data = true →
        extractBuyingIntent content = "solutions to evaluate") ∧
      (strIncludes (jsToLower content) ("recommend").data = false →
        strIncludes (jsToLower content) ("evaluat").data = false →
        strIncludes (jsToLower content) ("looking for").data = true →
        extractBuyingIntent content = "a solution") ∧
      (strIncludes (jsToLower content) ("recommend").data = false →
        strIncludes (jsToLower content) ("evaluat").data = false →
        strIncludes (jsToLower content) ("looking for").data = false →
        strIncludes (jsToLower content) ("anyone use").data = true →
        extractBuyingIntent content = "tool recommendations") ∧
      (strIncludes (jsToLower content) ("recommend").data = false →
        strIncludes (jsToLower content) ("evaluat").data = false →
        strIncludes (jsToLower content) ("looking for").data = false →
        strIncludes (jsToLower content) ("anyone use").data = false →
        extractBuyingIntent content = "solutions")) := by
  refine ⟨rfl, fun p => ⟨rfl, rfl⟩, fun content => ⟨?_, ?_, ?_, ?_, ?_⟩⟩
  · intro h1
    simp [extractBuyingIntent, h1]
  · intro h1 h2
    simp [extractBuyingIntent, h1, h2]
  · intro h1 h2 h3
    simp [extractBuyingIntent, h1, h2, h3]
  · intro h1 h2 h3 h4
    simp [extractBuyingIntent, h1, h2, h3, h4]
  · intro h1 h2 h3 h4
    simp [extractBuyingIntent, h1, h2, h3, h4]

/-- A concrete buying-signal post whose content matches the first keyword. -/
def buyingPostW : Post :=
  { post_url := "u", post_date := 0
    post_content := "Can anyone recommend a forecasting tool"
    engagement_count := 12, mentions_pain_points := false, mentions_buying_signals := true
    key_themes := ["forecasting"], topics_detected := [] }

/-- C9 witness: the concrete post's wedge scores 0.98 and its content,
containing "recommend", extracts the phrase "recommendations". -/
theorem c9_buying_signal_wedges_witness :
    (mkBuyingSignalWedge 0 buyingPostW).score = 0.98 ∧
    extractBuyingIntent buyingPostW.post_content = "recommendations" := by
  have h := c9_buying_signal_wedges 0 [buyingPostW]
  exact ⟨(h.2.1 buyingPostW).1, (h.2.2 buyingPostW.post_content).1 (by decide)⟩

/-- A profile carrying only a tenure value. -/
def profileTenure (t : Option Int) : LinkedInProfile :=
  { current_position_tenure_months := t, current_company := none
    previous_companies := [], location := none }

/-- C4 counterexample: a non-null profile with `tenureMonths = 0` satisfies
`tenureMonths < 6`, yet the rule emits no wedge (the JavaScript guard
`!profile.current_position_tenure_months` treats the falsy number 0 as
missing), contradicting "exactly one wedge of type recent when
tenureMonths < 6". -/
theorem c4_job_change_counterexample :
    (profileTenure (some 0)).current_position_tenure_months = some 0 ∧
    (0 : ℤ) < 6 ∧
    detectJobChangeWedges (some (profileTenure (some 0))) [] = [] :=
  ⟨rfl, by norm_num, rfl⟩

/-- C4 amended: with a null or absent profile, a NULL tenure, or the falsy
tenure 0, the job-change rule emits nothing; with a present nonzero tenure
below 6 it emits exactly the recent wedge (score 0.90); with tenure between
6 and 12 exactly the optimal wedge (score 0.85); with tenure above 12
nothing; and it never emits more than one wedge. -/
theorem c4_job_change_amended (profile : LinkedInProfile) (signals : List Signal) (t : Int) :
    detectJobChangeWedges none signals = [] ∧
    (profile.current_position_tenure_months = none →
      detectJobChangeWedges (some profile) signals = []) ∧
    (profile.current_position_tenure_months = some 0 →
      detectJobChangeWedges (some profile) signals = []) ∧
    (profile.current_position_tenure_months = some t → t ≠ 0 → t < 6 →
      detectJobChangeWedges (some profile) signals = [mkJobChangeRecentWedge profile t] ∧
      (mkJobChangeRecentWedge profile t).type = "linkedin_job_change_recent" ∧
      (mkJobChangeRecentWedge profile t).score = 0.90) ∧
    (profile.current_position_tenure_months = some t → 6 ≤ t → t ≤ 12 →
      detectJobChangeWedges (some profile) signals = [mkJobChangeOptimalWedge t] ∧
      (mkJobChangeOptimalWedge t).type = "linkedin_job_change_optimal" ∧
      (mkJobChangeOptimalWedge t).score = 0.85) ∧
    (profile.current_position_tenure_months = some t → 12 < t →
      detectJobChangeWedges (some profile) signals = []) ∧
    (detectJobChangeWedges (some profile) signals).length ≤ 1 := by
  refine ⟨rfl, ?_, ?_, ?_, ?_, ?_, ?_⟩
  · intro h
    simp [detectJobChangeWedges, h]
  · intro h
    simp [detectJobChangeWedges, h]
  · intro h h0 h6
    refine ⟨?_, rfl, rfl⟩
    simp [detectJobChangeWedges, h, h0, h6]
  · intro h h6 h12
    refine ⟨?_, rfl, rfl⟩
    have h0 : ¬ t = 0 := by omega
    have hlt : ¬ t < 6 := by omega
    simp [detectJobChangeWedges, h, h0, hlt, h6, h12]
  · intro h h12
    have h0 : ¬ t = 0 := by omega
    have hlt : ¬ t < 6 := by omega
    have hle : ¬ (6 ≤ t ∧ t ≤ 12) := by omega
    simp [detectJobChangeWedges, h, h0, hlt, hle]
  · unfold detectJobChangeWedges
    rcases h' : profile.current_position_tenure_months with _ | t'
    · simp [h']
    · simp only [h']
      split_ifs <;> simp

/-- C4 witness: a profile three months into the role yields exactly the
recent wedge with score 0.90. -/
theorem c4_job_change_amended_witness :
    detectJobChangeWedges (some (profileTenure (some 3))) [] =
      [mkJobChangeRecentWedge (profileTenure (some 3)) 3] ∧
    (mkJobChangeRecentWedge (profileTenure (some 3)) 3).score = 0.90 := by
  have h := (c4_job_change_amended (profileTenure (some 3)) [] 3).2.2.2.1
    rfl (by decide) (by decide)
  exact ⟨h.1, h.2.2⟩

/-- Wedges of the thought-leadership type emitted by the rule. -/
def highEngagementWedges (now : Int) (posts : List Post) : List Wedge :=
  (detectThoughtLeadershipWedges now posts).filter
    (fun w => w.type == "linkedin_thought_leadership")

/-- A post carrying only an engagement count. -/
def postEng (e : Nat) : Post :=
  { post_url := "u", post_date := 0, post_content := "c", engagement_count := e
    mentions_pain_points := false, mentions_buying_signals := false
    key_themes := [], topics_detected := [] }

/-- Six posts of which two exceed twice the average engagement. -/
def tlPosts : List Post :=
  [postEng 100, postEng 100, postEng 0, postEng 0, postEng 0, postEng 0]

/-- The average engagement of `tlPosts` is 100/3. -/
theorem tlPosts_avg : avgEngagementQ tlPosts = 100 / 3 := by
  show ((200 : Nat) : ℚ) / ((6 : Nat) : ℚ) = 100 / 3
  norm_num

/-- `tlHighFilter` on `tlPosts` holds precisely for the two 100-engagement posts. -/
theorem tlPosts_filter : tlPosts.filter (tlHighFilter tlPosts) = [postEng 100, postEng 100] := by
  have htrue : tlHighFilter tlPosts (postEng 100) = true := by
    simp only [tlHighFilter, tlPosts_avg, decide_eq_true_eq]
    show (100 : ℚ) / 3 * 2 < ((100 : Nat) : ℚ)
    norm_num
  have hfalse : tlHighFilter tlPosts (postEng 0) = false := by
    simp only [tlHighFilter, tlPosts_avg, decide_eq_false_iff_not]
    show ¬ (100 : ℚ) / 3 * 2 < ((0 : Nat) : ℚ)
    norm_num
  show List.filter (tlHighFilter tlPosts)
      (postEng 100 :: postEng 100 :: postEng 0 :: postEng 0 :: postEng 0 :: [postEng 0]) = _
  simp only [List.filter_cons, htrue, hfalse]
  simp

/-- C3 counterexample: in `tlPosts` two posts exceed twice the average
engagement, yet the rule emits only one high-engagement wedge (for the
first qualifying post), contradicting "one such wedge per qualifying post". -/
theorem c3_thought_leadership_counterexample :
    (tlPosts.filter (tlHighFilter tlPosts)).length = 2 ∧
    (highEngagementWedges 0 tlPosts).length = 1 := by
  constructor
  · rw [tlPosts_filter]
    rfl
  · have h1 : detectThoughtLeadershipWedges 0 tlPosts =
        [mkThoughtLeadershipWedge 0 (avgEngagementQ tlPosts) (postEng 100)] := by
      unfold detectThoughtLeadershipWedges
      rw [tlPosts_filter]
      have hlen : tlPosts.length = 6 := rfl
      rw [hlen]
      simp
    unfold highEngagementWedges
    rw [h1]
    rfl

/-- C3 amended: the rule emits at most one high-engagement wedge; it emits
none when no post exceeds twice the average engagement, and exactly one --
for the first qualifying post, with score 0.85 and a rationale citing that
post's engagement against the rounded average -- when at least one post
qualifies. -/
theorem c3_thought_leadership_amended (now : Int) (posts : List Post) :
    (highEngagementWedges now posts).length ≤ 1 ∧
    (match posts.filter (tlHighFilter posts) with
     | [] => highEngagementWedges now posts = []
     | topPost :: _ =>
       ∃ w, highEngagementWedges now posts = [w] ∧
         w.score = 0.85 ∧
         w.timingRationale = "High engagement (" ++ toString topPost.engagement_count
           ++ " vs " ++ toString (jsRound (avgEngagementQ posts))
           ++ " average) shows this topic resonates with their audience") := by
  have hact : ∀ ps : List Post,
      ((mkActivePosterWedge ps).type == "linkedin_thought_leadership") = false :=
    fun _ => rfl
  have htl : ∀ (n : Int) (q : ℚ) (p : Post),
      ((mkThoughtLeadershipWedge n q p).type == "linkedin_thought_leadership") = true :=
    fun _ _ _ => rfl
  have hempty : posts.length = 0 → highEngagementWedges now posts = [] := by
    intro hlen
    unfold highEngagementWedges detectThoughtLeadershipWedges
    simp [hlen]
  have key : ¬ posts.length = 0 →
      highEngagementWedges now posts =
        (match posts.filter (tlHighFilter posts) with
         | [] => []
         | topPost :: _ => [mkThoughtLeadershipWedge now (avgEngagementQ posts) topPost]) := by
    intro hlen
    unfold highEngagementWedges detectThoughtLeadershipWedges
    simp only [hlen, if_false]
    cases hfil : posts.filter (tlHighFilter posts) with
    | nil =>
      by_cases h10 : posts.length ≥ 10 <;>
        simp [h10, List.filter_append, List.filter_cons, hact]
    | cons topPost rest =>
      by_cases h10 : posts.length ≥ 10 <;>
        simp [h10, List.filter_append, List.filter_cons, hact, htl]
  constructor
  · by_cases hlen : posts.length = 0
    · rw [hempty hlen]
      simp
    · rw [key hlen]
      cases posts.filter (tlHighFilter posts) <;> simp
  · by_cases hlen : posts.length = 0
    · have hnil : posts = [] := List.length_eq_zero.mp hlen
      subst hnil
      exact hempty rfl
    · cases hfil : posts.filter (tlHighFilter posts) with
      | nil =>
        rw [key hlen, hfil]
      | cons topPost rest =>
        refine ⟨mkThoughtLeadershipWedge now (avgEngagementQ posts) topPost, ?_, rfl, rfl⟩
        rw [key hlen, hfil]

/-- The technical-buyer condition `githubActivity && githubActivity.activity_score > 0.6`. -/
def githubTechnicalBuyer : Option GithubActivity → Bool
  | none => false
  | some githubActivity => gtJS githubActivity.activity_score 0.6

/-- C5: after the sequential overwrites of `recommendChannels`, the final
email confidence is 0.9 when the GitHub activity score exceeds 0.6 and 0.8
otherwise -- regardless of post count; LinkedIn DM is 0.95 with five or more
posts and 0.5 otherwise; phone is 0.2 with a technical buyer and 0.3
otherwise. -/
theorem c5_recommend_channels (linkedinProfile : Option LinkedInProfile)
    (linkedinPosts : List Post) (githubActivity : Option GithubActivity) :
    (recommendChannels linkedinProfile linkedinPosts githubActivity).email =
      (if githubTechnicalBuyer githubActivity then (0.9 : ℚ) else 0.8) ∧
    (recommendChannels linkedinProfile linkedinPosts githubActivity).linkedin_dm =
      (if linkedinPosts.length ≥ 5 then (0.95 : ℚ) else 0.5) ∧
    (recommendChannels linkedinProfile linkedinPosts githubActivity).phone =
      (if githubTechnicalBuyer githubActivity then (0.2 : ℚ) else 0.3) := by
  unfold recommendChannels githubTechnicalBuyer
  rcases githubActivity with _ | g
  · by_cases h5 : linkedinPosts.length ≥ 5 <;> simp [h5]
  · by_cases h5 : linkedinPosts.length ≥ 5 <;>
      by_cases hg : gtJS g.activity_score 0.6 <;>
        simp [h5, hg]

/-- A concrete contact used by the playbook theorems. -/
def contactW : Contact :=
  { full_name := "Ada Example", current_company := none, current_title := none }

/-- A store for a contact with no posts, no profile, no GitHub data, no
speaking engagements and no signals: every read succeeds but yields nothing. -/
def emptyStore : Store :=
  { contact := .ok (some contactW), profile := .ok none, posts := .ok []
    github := .ok none, speaking := .ok [], signals := .ok [], save := .ok () }

/-- C6: when the contact exists, the five direct fetches succeed and wedge
detection finds no primary wedge, `generatePlaybook` returns the
insufficient-intelligence failure result (it does not throw) and persists
nothing. -/
theorem c6_no_wedge_failure (now : Int) (st : Store) (c : Contact)
    (hc : st.contact = .ok (some c))
    (hpr : ∃ x, st.profile = .ok x) (hpo : ∃ x, st.posts = .ok x)
    (hgh : ∃ x, st.github = .ok x) (hsp : ∃ x, st.speaking = .ok x)
    (hw : (detectWedges now st).primaryWedge = none) :
    generatePlaybook now st =
      ({ success := false, playbook := none
         error := some ("Insufficient intelligence to generate playbook") }, false) := by
  obtain ⟨pr, hpr⟩ := hpr
  obtain ⟨po, hpo⟩ := hpo
  obtain ⟨gh, hgh⟩ := hgh
  obtain ⟨sp, hsp⟩ := hsp
  unfold generatePlaybook
  rw [hc, hpr, hpo, hgh, hsp]
  simp [hw]

/-- C6 witness: a contact with no stored data at all yields the
insufficient-intelligence failure and no persisted playbook. -/
theorem c6_no_wedge_failure_witness :
    generatePlaybook 0 emptyStore =
      ({ success := false, playbook := none
         error := some ("Insufficient intelligence to generate playbook") }, false) :=
  c6_no_wedge_failure 0 emptyStore contactW rfl ⟨none, rfl⟩ ⟨[], rfl⟩ ⟨none, rfl⟩ ⟨[], rfl⟩ rfl

/-- A profile seven months into the current role. -/
def profile7 : LinkedInProfile :=
  { current_position_tenure_months := some 7, current_company := some ("Acme")
    previous_companies := [], location := none }

/-- A store whose signal fetch fails while every other read succeeds. -/
def storeSignalsDown : Store :=
  { contact := .ok (some contactW), profile := .ok (some profile7), posts := .ok []
    github := .ok none, speaking := .ok [], signals := .error ("db down"), save := .ok () }

/-- C7 counterexample: the signal-fetch failure does not propagate.  The
scorer's catch turns it into the empty list, the detector's catch kills
every wedge (even the profile-derived job-change wedge this contact would
otherwise get), and `generatePlaybook` reports the insufficient-intelligence
result -- byte-identical to the result for a contact with no stored data at
all -- instead of a failure carrying the store error. -/
theorem c7_error_propagation_counterexample :
    storeSignalsDown.signals = .error ("db down") ∧
    scoreAndPrioritizeSignals storeSignalsDown.signals = [] ∧
    (generatePlaybook 0 storeSignalsDown).1.error =
      some ("Insufficient intelligence to generate playbook") ∧
    generatePlaybook 0 storeSignalsDown = generatePlaybook 0 emptyStore :=
  ⟨rfl, rfl, rfl, rfl⟩

/-- C7 amended: a failure of any of the five direct fetches propagates as a
failure result with nothing persisted, and a signal-fetch failure also ends
in a failure result with nothing persisted -- but via the scorer returning
the empty list and the detector returning the empty wedge result, so it is
reported as insufficient intelligence rather than as the store error; in no
case is a partial playbook persisted after a fetch failure. -/
theorem c7_error_propagation_amended (now : Int) (st : Store) :
    (((∃ e, st.contact = .error e) ∨ (∃ e, st.profile = .error e)
        ∨ (∃ e, st.posts = .error e) ∨ (∃ e, st.github = .error e)
        ∨ (∃ e, st.speaking = .error e) ∨ (∃ e, st.signals = .error e)) →
      (generatePlaybook now st).1.success = false ∧ (generatePlaybook now st).2 = false) ∧
    (∀ e, scoreAndPrioritizeSignals (.error e) = []) ∧
    (∀ e, st.signals = .error e →
      detectWedges now st = { wedges := [], primaryWedge := none, wedgeCount := 0 }) := by
  have hdet : ∀ e, st.signals = .error e →
      detectWedges now st = { wedges := [], primaryWedge := none, wedgeCount := 0 } := by
    intro e he
    unfold detectWedges
    rcases hpr : st.profile with epr | vpr <;> rcases hpo : st.posts with epo | vpo <;>
      rcases hgh : st.github with egh | vgh <;> simp [hpr, hpo, hgh, he]
  have hmain : ∀ (c : Option Contact) pr po gh sp, st.contact = .ok c → st.profile = .ok pr →
      st.posts = .ok po → st.github = .ok gh → st.speaking = .ok sp →
      (∃ e, st.signals = .error e) →
      (generatePlaybook now st).1.success = false ∧ (generatePlaybook now st).2 = false := by
    intro c pr po gh sp hc hpr hpo hgh hsp he
    obtain ⟨e, he⟩ := he
    have hw := hdet e he
    unfold generatePlaybook
    rw [hc, hpr, hpo, hgh, hsp]
    rcases c with _ | c
    · simp
    · simp [hw]
  refine ⟨?_, fun e => rfl, hdet⟩
  intro h
  rcases hc : st.contact with ec | vc <;>
    rcases hpr : st.profile with epr | vpr <;>
      rcases hpo : st.posts with epo | vpo <;>
        rcases hgh : st.github with egh | vgh <;>
          rcases hsp : st.speaking with esp | vsp <;>
            first
              | (exact hmain _ _ _ _ _ hc hpr hpo hgh hsp (by
                  rcases h with ⟨e, he⟩ | ⟨e, he⟩ | ⟨e, he⟩ | ⟨e, he⟩ | ⟨e, he⟩ | he
                  · rw [hc] at he; exact Except.noConfusion he
                  · rw [hpr] at he; exact Except.noConfusion he
                  · rw [hpo] at he; exact Except.noConfusion he
                  · rw [hgh] at he; exact Except.noConfusion he
                  · rw [hsp] at he; exact Except.noConfusion he
                  · exact he))
              | (unfold generatePlaybook; rw [hc, hpr, hpo, hgh, hsp]; simp)

/-- C7 witness: with the signal store down, the playbook run fails and
persists nothing. -/
theorem c7_error_propagation_amended_witness :
    (generatePlaybook 0 storeSignalsDown).1.success = false ∧
    (generatePlaybook 0 storeSignalsDown).2 = false :=
  (c7_error_propagation_amended 0 storeSignalsDown).1
    (Or.inr (Or.inr (Or.inr (Or.inr (Or.inr ⟨"db down", rfl⟩)))))

/-- Every pain-point wedge is the per-post builder applied to some post. -/
theorem painPointWedges_mem {now : Int} {posts : List Post} {w : Wedge}
    (h : w ∈ detectPainPointWedges now posts) : ∃ p : Post, w = mkPainPointWedge now p := by
  unfold detectPainPointWedges at h
  obtain ⟨p, _, rfl⟩ := List.mem_map.mp h
  exact ⟨p, rfl⟩

/-- Every buying-signal wedge is the per-post builder applied to some post. -/
theorem buyingWedges_mem {now : Int} {posts : List Post} {w : Wedge}
    (h : w ∈ detectBuyingSignalWedges now posts) : ∃ p : Post, w = mkBuyingSignalWedge now p := by
  unfold detectBuyingSignalWedges at h
  obtain ⟨p, _, rfl⟩ := List.mem_map.mp h
  exact ⟨p, rfl⟩

/-- Job-change wedges score 0.90 or 0.85. -/
theorem jobChangeWedges_score {profile : Option LinkedInProfile} {signals : List Signal}
    {w : Wedge} (h : w ∈ detectJobChangeWedges profile signals) :
    w.score = 0.90 ∨ w.score = 0.85 := by
  unfold detectJobChangeWedges at h
  rcases profile with _ | profile
  · exact absurd h (List.not_mem_nil w)
  · replace h : w ∈
        (match profile.current_position_tenure_months with
         | none => []
         | some tenureMonths =>
           if tenureMonths = 0 then []
           else if tenureMonths < 6 then [mkJobChangeRecentWedge profile tenureMonths]
           else if 6 ≤ tenureMonths ∧ tenureMonths ≤ 12 then [mkJobChangeOptimalWedge tenureMonths]
           else []) := h
    rcases htm : profile.current_position_tenure_months with _ | t <;> rw [htm] at h
    · exact absurd h (List.not_mem_nil w)
    · replace h : w ∈
          (if t = 0 then []
           else if t < 6 then [mkJobChangeRecentWedge profile t]
           else if 6 ≤ t ∧ t ≤ 12 then [mkJobChangeOptimalWedge t]
           else []) := h
      split_ifs at h
      · exact absurd h (List.not_mem_nil w)
      · rw [List.mem_singleton.mp h]; left; rfl
      · rw [List.mem_singleton.mp h]; right; rfl
      · exact absurd h (List.not_mem_nil w)

/-- Thought-leadership wedges score 0.85 or 0.75. -/
theorem tlWedges_score {now : Int} {posts : List Post} {w : Wedge}
    (h : w ∈ detectThoughtLeadershipWedges now posts) : w.score = 0.85 ∨ w.score = 0.75 := by
  unfold detectThoughtLeadershipWedges at h
  by_cases hlen : posts.length = 0
  · rw [if_pos hlen] at h
    exact absurd h (List.not_mem_nil w)
  · rw [if_neg hlen] at h
    rcases List.mem_append.mp h with h1 | h1
    · rcases hfil : posts.filter (tlHighFilter posts) with _ | ⟨topPost, rest⟩ <;> rw [hfil] at h1
      · exact absurd h1 (List.not_mem_nil w)
      · rw [List.mem_singleton.mp h1]; left; rfl
    · by_cases h10 : posts.length ≥ 10
      · rw [if_pos h10] at h1
        rw [List.mem_singleton.mp h1]; right; rfl
      · rw [if_neg h10] at h1
        exact absurd h1 (List.not_mem_nil w)

/-- Technical wedges score 0.80. -/
theorem techWedges_score {posts : List Post} {gh : Option GithubActivity} {w : Wedge}
    (h : w ∈ detectTechnicalWedges posts gh) : w.score = 0.80 := by
  unfold detectTechnicalWedges at h
  rcases gh with _ | g
  · exact absurd h (List.not_mem_nil w)
  · replace h : w ∈
        (if (List.filter technicalTopicFilter posts).length > 0 ∧ gtJS g.activity_score 0.6 then
          [mkTechnicalWedge g (List.filter technicalTopicFilter posts).length]
        else []) := h
    split_ifs at h
    · rw [List.mem_singleton.mp h]; rfl
    · exact absurd h (List.not_mem_nil w)

/-- Initiative wedges score 0.70. -/
theorem initWedges_score {signals : List Signal} {w : Wedge}
    (h : w ∈ detectInitiativeWedges signals) : w.score = 0.70 := by
  unfold detectInitiativeWedges at h
  rcases hfil : signals.filter initiativeFilter with _ | ⟨s, rest⟩ <;> rw [hfil] at h
  · exact absurd h (List.not_mem_nil w)
  · rw [List.mem_singleton.mp h]; rfl

/-- The score facts for every wedge whose score is at most one. -/
theorem wedgeScoreFacts (w : Wedge) (P : Prop)
    (h : w.score = 0.98 ∨ w.score = 0.90 ∨ w.score = 0.85 ∨ w.score = 0.80
      ∨ w.score = 0.75 ∨ w.score = 0.70) :
    w.score ∈ ([0.70, 0.75, 0.80, 0.85, 0.90, 0.98, 1.00, 1.05, 1.10] : List ℚ) ∧
    (0.70 : ℚ) ≤ w.score ∧ w.score ≤ 1.10 ∧ ((1 : ℚ) < w.score → P) := by
  rcases h with h | h | h | h | h | h <;> rw [h] <;>
    exact ⟨by norm_num [List.mem_cons], by norm_num, by norm_num,
      fun h' => absurd h' (by norm_num)⟩

/-- C10: every wedge any of the six rules can emit has its score in the
finite set 0.70 / 0.75 / 0.80 / 0.85 / 0.90 / 0.98 / 1.00 / 1.05 / 1.10, so
no score exceeds 1.10 or falls below 0.70; and a score strictly above 1 can
only be a pain-point wedge whose post is less than 14 days old. -/
theorem c10_wedge_score_invariant (now : Int) (st : Store) (w : Wedge)
    (hw : w ∈ (detectWedges now st).wedges) :
    w.score ∈ ([0.70, 0.75, 0.80, 0.85, 0.90, 0.98, 1.00, 1.05, 1.10] : List ℚ) ∧
    (0.70 : ℚ) ≤ w.score ∧ w.score ≤ 1.10 ∧
    ((1 : ℚ) < w.score →
      w.type = "linkedin_pain_point" ∧
      ∃ url d ds themes eng preview,
        w.details = WedgeDetails.painPoint url d ds themes eng preview ∧ ds < 14) := by
  rcases hpr : st.profile with e1 | pr <;> rcases hpo : st.posts with e2 | posts <;>
    rcases hsg : st.signals with e3 | sigs <;> rcases hgh : st.github with e4 | gh <;>
      simp only [detectWedges, hpr, hpo, hsg, hgh, List.not_mem_nil] at hw
  have hw' := (List.perm_insertionSort wedgeGE _).mem_iff.mp hw
  simp only [List.mem_append] at hw'
  rcases hw' with ((((h | h) | h) | h) | h) | h
  · -- pain-point wedge
    obtain ⟨p, rfl⟩ := painPointWedges_mem h
    have hsc : (mkPainPointWedge now p).score = 0.95 +
        (if getDaysSince now p.post_date < 7 then (0.15 : ℚ)
         else if getDaysSince now p.post_date < 14 then 0.10 else 0.05) := rfl
    have hdet : (mkPainPointWedge now p).details =
        WedgeDetails.painPoint p.post_url p.post_date (getDaysSince now p.post_date)
          p.key_themes p.engagement_count (p.post_content.take 200) := rfl
    by_cases h7 : getDaysSince now p.post_date < 7
    · have hval : (mkPainPointWedge now p).score = 1.10 := by
        rw [hsc, if_pos h7] <;> norm_num
      refine ⟨by rw [hval] <;> norm_num [List.mem_cons], by rw [hval] <;> norm_num,
        by rw [hval] <;> norm_num, fun _ => ⟨rfl, ?_⟩⟩
      exact ⟨p.post_url, p.post_date, getDaysSince now p.post_date, p.key_themes,
        p.engagement_count, p.post_content.take 200, hdet, by omega⟩
    · by_cases h14 : getDaysSince now p.post_date < 14
      · have hval : (mkPainPointWedge now p).score = 1.05 := by
          rw [hsc, if_neg h7, if_pos h14] <;> norm_num
        refine ⟨by rw [hval] <;> norm_num [List.mem_cons], by rw [hval] <;> norm_num,
          by rw [hval] <;> norm_num, fun _ => ⟨rfl, ?_⟩⟩
        exact ⟨p.post_url, p.post_date, getDaysSince now p.post_date, p.key_themes,
          p.engagement_count, p.post_content.take 200, hdet, h14⟩
      · have hval : (mkPainPointWedge now p).score = 1.00 := by
          rw [hsc, if_neg h7, if_neg h14] <;> norm_num
        refine ⟨by rw [hval] <;> norm_num [List.mem_cons], by rw [hval] <;> norm_num,
          by rw [hval] <;> norm_num, fun h' => absurd h' (by rw [hval] <;> norm_num)⟩
  · -- buying-signal wedge
    obtain ⟨p, rfl⟩ := buyingWedges_mem h
    exact wedgeScoreFacts _ _ (Or.inl rfl)
  · -- job-change wedge
    exact wedgeScoreFacts _ _ (Or.inr (jobChangeWedges_score h |>.imp id Or.inl))
  · -- thought-leadership wedge
    rcases tlWedges_score h with hs | hs
    · exact wedgeScoreFacts _ _ (Or.inr (Or.inr (Or.inl hs)))
    · exact wedgeScoreFacts _ _ (Or.inr (Or.inr (Or.inr (Or.inr (Or.inl hs)))))
  · -- technical wedge
    exact wedgeScoreFacts _ _ (Or.inr (Or.inr (Or.inr (Or.inl (techWedges_score h)))))
  · -- initiative wedge
    exact wedgeScoreFacts _ _ (Or.inr (Or.inr (Or.inr (Or.inr (Or.inr (initWedges_score h))))))

/-- A company-hiring timing-trigger signal. -/
def initSignalW : Signal :=
  ⟨"company_hiring", "timing_trigger", 0.9, 0.9, 0.9, "Hiring SDRs", none⟩

/-- A store whose only intelligence is one company-hiring signal. -/
def storeInit : Store :=
  { contact := .ok (some contactW), profile := .ok none, posts := .ok []
    github := .ok none, speaking := .ok [], signals := .ok [initSignalW], save := .ok () }

/-- C10 witness: the initiative wedge detected from the company-hiring
signal has its score in the allowed set and within the 0.70 -- 1.10 bounds. -/
theorem c10_wedge_score_invariant_witness :
    (mkInitiativeWedge initSignalW).score ∈
      ([0.70, 0.75, 0.80, 0.85, 0.90, 0.98, 1.00, 1.05, 1.10] : List ℚ) ∧
    (0.70 : ℚ) ≤ (mkInitiativeWedge initSignalW).score ∧
    (mkInitiativeWedge initSignalW).score ≤ 1.10 ∧
    ((1 : ℚ) < (mkInitiativeWedge initSignalW).score →
      (mkInitiativeWedge initSignalW).type = "linkedin_pain_point" ∧
      ∃ url d ds themes eng preview,
        (mkInitiativeWedge initSignalW).details =
          WedgeDetails.painPoint url d ds themes eng preview ∧ ds < 14) := by
  refine c10_wedge_score_invariant 0 storeInit (mkInitiativeWedge initSignalW) ?_
  have hlist : (detectWedges 0 storeInit).wedges = [mkInitiativeWedge initSignalW] := rfl
  rw [hlist]
  exact List.mem_singleton.mpr rfl
